import Mathlib

/-!
Shallow embedding of `src/auth_logic/validation/user_val.py`
(classes `LoginVal` and `RegisterVal`) together with models of their
external collaborators (`UserDB` store, bcrypt hashing context), and
proofs of the specification's claims about them.
-/

set_option maxHeartbeats 1000000
set_option synthInstance.maxSize 2000
set_option synthInstance.maxHeartbeats 1000000

/-! ## A small regular-expression engine (Brzozowski derivatives)

`user_val.py` compiles the pattern
`([A-Za-z0-9]+[.-_])*[A-Za-z0-9]+@[A-Za-z0-9-]+(\.[A-Z|a-z]{2,})+`
and uses `re.fullmatch`.  We embed full-match semantics with a
derivative-based matcher over character classes. -/

inductive Regex where
  | emp : Regex
  | eps : Regex
  | cls (p : Char → Bool) : Regex
  | cat (r1 r2 : Regex) : Regex
  | alt (r1 r2 : Regex) : Regex
  | star (r : Regex) : Regex

def Regex.nullable : Regex → Bool
  | .emp => false
  | .eps => true
  | .cls _ => false
  | .cat r1 r2 => r1.nullable && r2.nullable
  | .alt r1 r2 => r1.nullable || r2.nullable
  | .star _ => true

/-- Smart concatenation constructor (prunes `emp`/`eps`). -/
def Regex.scat : Regex → Regex → Regex
  | .emp, _ => .emp
  | _, .emp => .emp
  | .eps, r2 => r2
  | r1, .eps => r1
  | r1, r2 => .cat r1 r2

/-- Smart alternation constructor (prunes `emp`). -/
def Regex.salt : Regex → Regex → Regex
  | .emp, r2 => r2
  | r1, .emp => r1
  | r1, r2 => .alt r1 r2

def Regex.deriv : Regex → Char → Regex
  | .emp, _ => .emp
  | .eps, _ => .emp
  | .cls p, c => if p c then .eps else .emp
  | .cat r1 r2, c =>
      if r1.nullable then Regex.salt (Regex.scat (r1.deriv c) r2) (r2.deriv c)
      else Regex.scat (r1.deriv c) r2
  | .alt r1 r2, c => Regex.salt (r1.deriv c) (r2.deriv c)
  | .star r, c => Regex.scat (r.deriv c) (.star r)

def Regex.derivs : Regex → List Char → Regex
  | r, [] => r
  | r, c :: cs => (r.deriv c).derivs cs

/-- Full-match semantics: `re.fullmatch(pattern, s)` viewed as a boolean. -/
def refullmatch (r : Regex) (s : String) : Bool :=
  (r.derivs s.data).nullable

/-- one-or-more (`+` in the pattern). -/
def Regex.plus (r : Regex) : Regex := .cat r (.star r)

/-- at-least-two (`{2,}` in the pattern). -/
def Regex.rep2 (r : Regex) : Regex := .cat r (.cat r (.star r))

/-- The class `[A-Za-z0-9]`. -/
def isAlnumChar (c : Char) : Bool :=
  ('A' ≤ c && c ≤ 'Z') || ('a' ≤ c && c ≤ 'z') || ('0' ≤ c && c ≤ '9')

/-- The class `[.-_]` as Python reads it: a RANGE from `'.'` (46) to `'_'` (95).
It does not contain `'-'` (45), and it does contain `'@'`, `'/'`, digits,
uppercase letters, `[`, `\`, `]`, `^`, `_`. -/
def isSepRangeChar (c : Char) : Bool :=
  '.' ≤ c && c ≤ '_'

/-- The class `[A-Za-z0-9-]` (domain labels). -/
def isDomainChar (c : Char) : Bool :=
  isAlnumChar c || c == '-'

/-- The class `[A-Z|a-z]`: uppercase, lowercase, and the literal `'|'`. -/
def isTldChar (c : Char) : Bool :=
  ('A' ≤ c && c ≤ 'Z') || c == '|' || ('a' ≤ c && c ≤ 'z')

/-- The compiled `email_regex` of `LoginVal.__init__` / `RegisterVal.__init__`:
`([A-Za-z0-9]+[.-_])*[A-Za-z0-9]+@[A-Za-z0-9-]+(\.[A-Z|a-z]{2,})+`. -/
def email_regex : Regex :=
  .cat (.star (.cat (Regex.plus (.cls isAlnumChar)) (.cls isSepRangeChar)))
    (.cat (Regex.plus (.cls isAlnumChar))
      (.cat (.cls (fun c => c == '@'))
        (.cat (Regex.plus (.cls isDomainChar))
          (Regex.plus (.cat (.cls (fun c => c == '.')) (Regex.rep2 (.cls isTldChar)))))))

/-- The boolean `bool(re.fullmatch(email_regex, s))`, shared by both validators. -/
def email_ok (s : String) : Bool := refullmatch email_regex s

/-! ## Data model

`User` mirrors `auth_logic.entity.user.User` as consumed by `RegisterVal`
(fields `name`, `username`, `email`, `phone`, `pass1`, `pass2`, `uid`).
`StoredUser` mirrors the dictionary built in `RegisterVal.save_user`
(`Name`, `username`, `password`, `email`, `ph_no`, `UUID`). -/

structure User where
  name : String
  username : String
  email : String
  phone : String
  pass1 : String
  pass2 : String
  uid : String
deriving DecidableEq, Repr

structure StoredUser where
  name : String
  username : String
  password : String
  email : String
  phone : String
  uuid : String
deriving DecidableEq, Repr

/-- The filter dictionaries passed to `UserDB.fetch_user`
(`{"username": ...}`, `{"email": ...}`, `{"UUID": ...}`). -/
inductive DBFilter where
  | byUsername (s : String) : DBFilter
  | byEmail (s : String) : DBFilter
  | byUUID (s : String) : DBFilter
deriving DecidableEq, Repr

def matchesFilter (f : DBFilter) (r : StoredUser) : Bool :=
  match f with
  | .byUsername s => r.username == s
  | .byEmail s => r.email == s
  | .byUUID s => r.uuid == s

/-- Modelled from the spec: `UserDB` (`auth_logic.data_access.user_data`)
is not under `src/`; the spec's UserStore exposes
`fetch(filter) -> Optional<UserRecord>`.  The store is a list of records
and `fetch` returns the first record matching the filter, or none. -/
def fetch_user (store : List StoredUser) (f : DBFilter) : Option StoredUser :=
  store.find? (matchesFilter f)

/-- Modelled from the spec: `UserDB.add_user` / the spec's
`insert(record) -> void`; appends the new record to the store. -/
def add_user (store : List StoredUser) (r : StoredUser) : List StoredUser :=
  store ++ [r]

/-- Modelled from the spec: the PasswordHasher collaborator
(`passlib` `CryptContext` with bcrypt, external to the repository).
The spec requires a salted, adaptive one-way hash with
`hash(plaintext) -> digest` and `verify(plaintext, digest) -> bool`:
verification succeeds exactly on the hashed plaintext, and a digest is
never the plaintext itself. -/
structure Hasher where
  hash : String → String
  verify : String → String → Bool
  verify_hash_self : ∀ p, verify p (hash p) = true
  verify_hash_ne : ∀ p q, p ≠ q → verify p (hash q) = false
  hash_ne_plain : ∀ p, hash p ≠ p

/-! ## LoginVal -/

namespace LoginVal

/-- Embeds `LoginVal.is_email_valid`: full-match of the email against the regex. -/
def is_email_valid (email : String) : Bool := email_ok email

/-- Embeds `LoginVal.validate`: collects error messages for the login form.
Python's `not self.email` on a string is emptiness. -/
def validate (email pwd : String) : List String :=
  let errors : List String := []
  let errors := if email.isEmpty then errors ++ ["Email is required"] else errors
  let errors := if pwd.isEmpty then errors ++ ["Password is required"] else errors
  let errors := if !(is_email_valid email) then errors ++ ["Invalid Email"] else errors
  errors

/-- The `{status, msg}` dictionaries returned by `validate_login` /
`validate_reg` (`msg` is absent on success). -/
structure ValStatus where
  status : Bool
  msg : Option (List String)
deriving DecidableEq, Repr

/-- Embeds `LoginVal.validate_login`. -/
def validate_login (email pwd : String) : ValStatus :=
  let errors := validate email pwd
  if !errors.isEmpty then ⟨false, some errors⟩ else ⟨true, none⟩

/-- Embeds `LoginVal.verify_pwd`: delegates to the bcrypt context. -/
def verify_pwd (H : Hasher) (plain_pwd hashed_pwd : String) : Bool :=
  H.verify plain_pwd hashed_pwd

/-- Result of `LoginVal.auth_user`: the Python code returns either the
user record or `False`. -/
inductive AuthResult where
  | failure : AuthResult
  | success (u : StoredUser) : AuthResult
deriving DecidableEq, Repr

/-- Embeds `LoginVal.auth_user` (the non-exceptional path; the store is the
`UserDB` contents at the time of the fetch). -/
def auth_user (H : Hasher) (store : List StoredUser) (email pwd : String) :
    AuthResult :=
  let login_status := validate_login email pwd
  if login_status.status then
    match fetch_user store (DBFilter.byEmail email) with
    | none => .failure
    | some user =>
        if !(verify_pwd H pwd user.password) then .failure
        else .success user
  else .failure

end LoginVal

/-! ## RegisterVal -/

namespace RegisterVal

/-- Embeds `RegisterVal.is_email_valid`. -/
def is_email_valid (u : User) : Bool := email_ok u.email

/-- Embeds `RegisterVal.is_pwd_valid`: `8 <= len(pass1) <= 16`. -/
def is_pwd_valid (u : User) : Bool :=
  8 ≤ u.pass1.length && u.pass1.length ≤ 16

/-- Embeds `RegisterVal.is_pwd_match`: `pass1 == pass2`. -/
def is_pwd_match (u : User) : Bool := u.pass1 == u.pass2

/-- Embeds `RegisterVal.is_user_exists`: fetches by username, email and UUID
(`self.uuid = self.user.uid`), and returns `not any(...)` — i.e. `true`
when NO matching record exists. -/
def is_user_exists (store : List StoredUser) (u : User) : Bool :=
  let user_exists :=
    (fetch_user store (DBFilter.byUsername u.username)).isSome ||
    (fetch_user store (DBFilter.byEmail u.email)).isSome ||
    (fetch_user store (DBFilter.byUUID u.uid)).isSome
  !user_exists

/-- Embeds `RegisterVal.validate`: runs every check and collects messages. -/
def validate (store : List StoredUser) (u : User) : List String :=
  let errors : List String := []
  let errors := if u.name.isEmpty then errors ++ ["Name is required"] else errors
  let errors := if u.username.isEmpty then errors ++ ["Username is required"] else errors
  let errors := if u.email.isEmpty then errors ++ ["Email is required"] else errors
  let errors := if u.phone.isEmpty then errors ++ ["Phone Number is required"] else errors
  let errors := if u.pass1.isEmpty then errors ++ ["Password is required"] else errors
  let errors := if u.pass2.isEmpty then errors ++ ["Confirm Password is required"] else errors
  let errors := if !(is_email_valid u) then errors ++ ["Invalid Email"] else errors
  let errors := if !(is_pwd_valid u) then errors ++ ["Password must be 8-16 characters long"] else errors
  let errors := if !(is_pwd_match u) then errors ++ ["Passwords do not match"] else errors
  let errors := if !(is_user_exists store u) then errors ++ ["User already exists"] else errors
  errors

/-- Embeds `RegisterVal.hash_pwd`. -/
def hash_pwd (H : Hasher) (pwd : String) : String := H.hash pwd

/-- Embeds `RegisterVal.validate_reg`. -/
def validate_reg (store : List StoredUser) (u : User) : LoginVal.ValStatus :=
  let errors := validate store u
  if !errors.isEmpty then ⟨false, some errors⟩ else ⟨true, none⟩

/-- The `msg` value of `save_user`'s result: a plain string on success,
the re-computed error list on failure. -/
inductive RegMsg where
  | text (s : String) : RegMsg
  | errors (l : List String) : RegMsg
deriving DecidableEq, Repr

structure SaveResult where
  status : Bool
  msg : RegMsg
deriving DecidableEq, Repr

/-- The record dictionary built in `save_user` before `add_user`. -/
def mkRecord (H : Hasher) (u : User) : StoredUser :=
  { name := u.name
    username := u.username
    password := hash_pwd H u.pass1
    email := u.email
    phone := u.phone
    uuid := u.uid }

/-- Embeds `RegisterVal.save_user` (non-exceptional path), with the store passed
explicitly; returns the result dictionary and the store after the call.
On failure the code recomputes `self.validate()` for the message list. -/
def save_user (H : Hasher) (store : List StoredUser) (u : User) :
    SaveResult × List StoredUser :=
  if (validate_reg store u).status then
    (⟨true, .text "User registered successfully"⟩,
     add_user store (mkRecord H u))
  else
    (⟨false, .errors (validate store u)⟩, store)

end RegisterVal

/-! ## Exception propagation

Python exceptions raised by the collaborators (`UserDB`, bcrypt) flow
through `try/except` blocks.  `LoginVal.auth_user` ends with
`raise AppException(e, sys) from e`; `RegisterVal.save_user` ends with
`raise e` (re-raised unchanged).  We model raised values and make the
collaborators fallible. -/

/-- A raised Python exception: either an underlying (store/hash) error,
or an `AppException` wrapping one. -/
inductive PyError where
  | raw (msg : String) : PyError
  | appException (e : PyError) : PyError
deriving DecidableEq, Repr

/-- Is a raised error wrapped in the typed application error
`AppException`? (`ok` results have no error to wrap). -/
def errorIsWrapped {α : Type} : Except PyError α → Bool
  | .error (.appException _) => true
  | .error (.raw _) => false
  | .ok _ => true

namespace LoginVal

/-- Body of the `try:` block of `auth_user`, with fallible fetch and
verify collaborators. -/
def auth_user_body (fetchE : DBFilter → Except PyError (Option StoredUser))
    (verifyE : String → String → Except PyError Bool)
    (email pwd : String) : Except PyError AuthResult := do
  let login_status := validate_login email pwd
  if login_status.status then
    let user? ← fetchE (DBFilter.byEmail email)
    match user? with
    | none => pure .failure
    | some user => do
        let ok ← verifyE pwd user.password
        if !ok then pure .failure else pure (.success user)
  else pure .failure

/-- Embeds `LoginVal.auth_user` with its `except Exception as e:
raise AppException(e, sys) from e` clause: any error from the body is
wrapped in `AppException`. -/
def auth_userE (fetchE : DBFilter → Except PyError (Option StoredUser))
    (verifyE : String → String → Except PyError Bool)
    (email pwd : String) : Except PyError AuthResult :=
  match auth_user_body fetchE verifyE email pwd with
  | .ok r => .ok r
  | .error e => .error (.appException e)

end LoginVal

namespace RegisterVal

/-- Version of `is_user_exists` with a fallible store: `any([...])` builds the list
first, so all three fetches run (in order username, email, UUID). -/
def is_user_existsE (fetchE : DBFilter → Except PyError (Option StoredUser))
    (u : User) : Except PyError Bool := do
  let r1 ← fetchE (DBFilter.byUsername u.username)
  let r2 ← fetchE (DBFilter.byEmail u.email)
  let r3 ← fetchE (DBFilter.byUUID u.uid)
  pure !(r1.isSome || r2.isSome || r3.isSome)

/-- Version of `RegisterVal.validate` with a fallible store. -/
def validateE (fetchE : DBFilter → Except PyError (Option StoredUser))
    (u : User) : Except PyError (List String) := do
  let errors : List String := []
  let errors := if u.name.isEmpty then errors ++ ["Name is required"] else errors
  let errors := if u.username.isEmpty then errors ++ ["Username is required"] else errors
  let errors := if u.email.isEmpty then errors ++ ["Email is required"] else errors
  let errors := if u.phone.isEmpty then errors ++ ["Phone Number is required"] else errors
  let errors := if u.pass1.isEmpty then errors ++ ["Password is required"] else errors
  let errors := if u.pass2.isEmpty then errors ++ ["Confirm Password is required"] else errors
  let errors := if !(is_email_valid u) then errors ++ ["Invalid Email"] else errors
  let errors := if !(is_pwd_valid u) then errors ++ ["Password must be 8-16 characters long"] else errors
  let errors := if !(is_pwd_match u) then errors ++ ["Passwords do not match"] else errors
  let exists_ok ← is_user_existsE fetchE u
  let errors := if !exists_ok then errors ++ ["User already exists"] else errors
  pure errors

/-- Version of `RegisterVal.validate_reg` with a fallible store. -/
def validate_regE (fetchE : DBFilter → Except PyError (Option StoredUser))
    (u : User) : Except PyError LoginVal.ValStatus := do
  let errors ← validateE fetchE u
  if !errors.isEmpty then pure ⟨false, some errors⟩ else pure ⟨true, none⟩

/-- Body of the `try:` block of `save_user`, with fallible fetch, hash
and insert collaborators. -/
def save_user_body (fetchE : DBFilter → Except PyError (Option StoredUser))
    (hashE : String → Except PyError String)
    (insertE : StoredUser → Except PyError Unit)
    (u : User) : Except PyError SaveResult := do
  let v ← validate_regE fetchE u
  if v.status then
    let hashed ← hashE u.pass1
    insertE { name := u.name, username := u.username, password := hashed,
              email := u.email, phone := u.phone, uuid := u.uid }
    pure ⟨true, .text "User registered successfully"⟩
  else do
    let msgs ← validateE fetchE u
    pure ⟨false, .errors msgs⟩

/-- Embeds `RegisterVal.save_user` with its `except Exception as e: raise e`
clause: the error from the body is re-raised UNCHANGED (no wrapping). -/
def save_userE (fetchE : DBFilter → Except PyError (Option StoredUser))
    (hashE : String → Except PyError String)
    (insertE : StoredUser → Except PyError Unit)
    (u : User) : Except PyError SaveResult :=
  match save_user_body fetchE hashE insertE u with
  | .ok r => .ok r
  | .error e => .error e

/-! ### Store-query trace instrumentation

`save_user` calls `validate_reg` (hence `validate`, hence the three
uniqueness fetches) once for the status, and on failure calls
`self.validate()` a second time to build the returned messages.  The
instrumented versions record the fetch filters issued, and take the
store snapshot seen by each of the two validation passes separately. -/

/-- The uniqueness filters issued by one run of `is_user_exists`, in
order. -/
def uniq_queries (u : User) : List DBFilter :=
  [DBFilter.byUsername u.username, DBFilter.byEmail u.email,
   DBFilter.byUUID u.uid]

/-- Version of `fetch_user` with its query recorded. -/
def fetch_userT (store : List StoredUser) (f : DBFilter) :
    Option StoredUser × List DBFilter :=
  (fetch_user store f, [f])

/-- Version of `is_user_exists` with its queries recorded. -/
def is_user_existsT (store : List StoredUser) (u : User) :
    Bool × List DBFilter :=
  let r1 := fetch_userT store (DBFilter.byUsername u.username)
  let r2 := fetch_userT store (DBFilter.byEmail u.email)
  let r3 := fetch_userT store (DBFilter.byUUID u.uid)
  (!(r1.1.isSome || r2.1.isSome || r3.1.isSome), r1.2 ++ r2.2 ++ r3.2)

/-- Version of `RegisterVal.validate` with its store queries recorded. -/
def validateT (store : List StoredUser) (u : User) :
    List String × List DBFilter :=
  let ex := is_user_existsT store u
  let errors : List String := []
  let errors := if u.name.isEmpty then errors ++ ["Name is required"] else errors
  let errors := if u.username.isEmpty then errors ++ ["Username is required"] else errors
  let errors := if u.email.isEmpty then errors ++ ["Email is required"] else errors
  let errors := if u.phone.isEmpty then errors ++ ["Phone Number is required"] else errors
  let errors := if u.pass1.isEmpty then errors ++ ["Password is required"] else errors
  let errors := if u.pass2.isEmpty then errors ++ ["Confirm Password is required"] else errors
  let errors := if !(is_email_valid u) then errors ++ ["Invalid Email"] else errors
  let errors := if !(is_pwd_valid u) then errors ++ ["Password must be 8-16 characters long"] else errors
  let errors := if !(is_pwd_match u) then errors ++ ["Passwords do not match"] else errors
  let errors := if !ex.1 then errors ++ ["User already exists"] else errors
  (errors, ex.2)

/-- Version of `RegisterVal.validate_reg` with its store queries recorded. -/
def validate_regT (store : List StoredUser) (u : User) :
    LoginVal.ValStatus × List DBFilter :=
  let v := validateT store u
  (if !v.1.isEmpty then ⟨false, some v.1⟩ else ⟨true, none⟩, v.2)

/-- Version of `RegisterVal.save_user` with its store queries recorded.  `s1` is the
store snapshot read by the first validation pass (inside `validate_reg`),
`s2` the snapshot read by the second pass (the `self.validate()` call
that rebuilds the failure messages). -/
def save_userT (H : Hasher) (s1 s2 : List StoredUser) (u : User) :
    (SaveResult × List StoredUser) × List DBFilter :=
  let first := validate_regT s1 u
  if first.1.status then
    ((⟨true, .text "User registered successfully"⟩,
      add_user s1 (mkRecord H u)), first.2)
  else
    let second := validateT s2 u
    ((⟨false, .errors second.1⟩, s1), first.2 ++ second.2)

end RegisterVal

/-! ## A concrete model hasher (used by the concrete witnesses) -/

/-- The string `"$2b$"` prefixed to the plaintext: a degenerate but law-abiding
instance of the spec's hash contract, used only to instantiate the
theorems at concrete inputs. -/
def modelHash (p : String) : String := "$2b$" ++ p

def modelVerify (p h : String) : Bool := h == modelHash p

def Hmodel : Hasher where
  hash := modelHash
  verify := modelVerify
  verify_hash_self := by
    intro p
    simp [modelVerify]
  verify_hash_ne := by
    intro p q hpq
    simp only [modelVerify, beq_eq_false_iff_ne, ne_eq]
    intro h
    apply hpq
    have hd := congrArg String.data h
    simp [modelHash, String.data_append] at hd
    exact (String.ext hd).symm
  hash_ne_plain := by
    intro p h
    have hl := congrArg String.length h
    simp [modelHash, String.length_append] at hl
    exact absurd hl (by decide)

/-- The registration checks in source order: each entry pairs the
"this check failed" condition with the message `validate` appends. -/
def RegisterVal.reg_checks (store : List StoredUser) (u : User) :
    List (Bool × String) :=
  [(u.name.isEmpty, "Name is required"),
   (u.username.isEmpty, "Username is required"),
   (u.email.isEmpty, "Email is required"),
   (u.phone.isEmpty, "Phone Number is required"),
   (u.pass1.isEmpty, "Password is required"),
   (u.pass2.isEmpty, "Confirm Password is required"),
   (!(RegisterVal.is_email_valid u), "Invalid Email"),
   (!(RegisterVal.is_pwd_valid u), "Password must be 8-16 characters long"),
   (!(RegisterVal.is_pwd_match u), "Passwords do not match"),
   (!(RegisterVal.is_user_exists store u), "User already exists")]

/-- Registration input used by the concrete witnesses (the spec's
scenario user). -/
def aliceUser : User :=
  ⟨"A", "alice", "a@b.com", "123", "password1", "password1", "u-1"⟩

/-- Variant of `aliceUser` with a non-matching password confirmation. -/
def mismatchUser : User :=
  ⟨"A", "alice", "a@b.com", "123", "password1", "different1", "u-1"⟩

/-- Variant of `aliceUser` with a 5-character password. -/
def shortPwdUser : User :=
  ⟨"A", "alice", "a@b.com", "123", "short", "short", "u-1"⟩

/-- The record produced by registering `aliceUser` under `Hmodel`. -/
def aliceStored : StoredUser :=
  ⟨"A", "alice", "$2b$password1", "a@b.com", "123", "u-1"⟩

/-- A registration candidate whose username collides with `aliceStored`. -/
def dupUser : User :=
  ⟨"B", "alice", "b@c.com", "456", "password2", "password2", "u-2"⟩

/-- A store collaborator that always raises an underlying error. -/
def badFetch : DBFilter → Except PyError (Option StoredUser) :=
  fun _ => .error (.raw "db down")

/-- A hash collaborator that never raises. -/
def okHash : String → Except PyError String := fun p => .ok (modelHash p)

/-- A verify collaborator that never raises. -/
def okVerify : String → String → Except PyError Bool :=
  fun p h => .ok (modelVerify p h)

/-- An insert collaborator that never raises. -/
def okInsert : StoredUser → Except PyError Unit := fun _ => .ok ()

/-! ## Helper lemmas -/

namespace RegisterVal

lemma validate_eq_checks (store : List StoredUser) (u : User) :
    validate store u = ((reg_checks store u).filter (·.1)).map (·.2) := by
  unfold validate reg_checks
  generalize u.name.isEmpty = b1
  generalize u.username.isEmpty = b2
  generalize u.email.isEmpty = b3
  generalize u.phone.isEmpty = b4
  generalize u.pass1.isEmpty = b5
  generalize u.pass2.isEmpty = b6
  generalize is_email_valid u = b7
  generalize is_pwd_valid u = b8
  generalize is_pwd_match u = b9
  generalize is_user_exists store u = b10
  revert b1 b2 b3 b4 b5 b6 b7 b8 b9 b10
  decide

lemma validate_eq_nil_iff (store : List StoredUser) (u : User) :
    validate store u = [] ↔
      (u.name.isEmpty = false ∧ u.username.isEmpty = false ∧
       u.email.isEmpty = false ∧ u.phone.isEmpty = false ∧
       u.pass1.isEmpty = false ∧ u.pass2.isEmpty = false ∧
       is_email_valid u = true ∧ is_pwd_valid u = true ∧
       is_pwd_match u = true ∧ is_user_exists store u = true) := by
  unfold validate
  generalize u.name.isEmpty = b1
  generalize u.username.isEmpty = b2
  generalize u.email.isEmpty = b3
  generalize u.phone.isEmpty = b4
  generalize u.pass1.isEmpty = b5
  generalize u.pass2.isEmpty = b6
  generalize is_email_valid u = b7
  generalize is_pwd_valid u = b8
  generalize is_pwd_match u = b9
  generalize is_user_exists store u = b10
  revert b1 b2 b3 b4 b5 b6 b7 b8 b9 b10
  decide

lemma mem_validate_pwd_len (store : List StoredUser) (u : User) :
    "Password must be 8-16 characters long" ∈ validate store u ↔
      is_pwd_valid u = false := by
  unfold validate
  generalize u.name.isEmpty = b1
  generalize u.username.isEmpty = b2
  generalize u.email.isEmpty = b3
  generalize u.phone.isEmpty = b4
  generalize u.pass1.isEmpty = b5
  generalize u.pass2.isEmpty = b6
  generalize is_email_valid u = b7
  generalize is_pwd_valid u = b8
  generalize is_pwd_match u = b9
  generalize is_user_exists store u = b10
  revert b1 b2 b3 b4 b5 b6 b7 b8 b9 b10
  decide

lemma mem_validate_pwd_match (store : List StoredUser) (u : User) :
    "Passwords do not match" ∈ validate store u ↔
      is_pwd_match u = false := by
  unfold validate
  generalize u.name.isEmpty = b1
  generalize u.username.isEmpty = b2
  generalize u.email.isEmpty = b3
  generalize u.phone.isEmpty = b4
  generalize u.pass1.isEmpty = b5
  generalize u.pass2.isEmpty = b6
  generalize is_email_valid u = b7
  generalize is_pwd_valid u = b8
  generalize is_pwd_match u = b9
  generalize is_user_exists store u = b10
  revert b1 b2 b3 b4 b5 b6 b7 b8 b9 b10
  decide

lemma mem_validate_exists (store : List StoredUser) (u : User) :
    "User already exists" ∈ validate store u ↔
      is_user_exists store u = false := by
  unfold validate
  generalize u.name.isEmpty = b1
  generalize u.username.isEmpty = b2
  generalize u.email.isEmpty = b3
  generalize u.phone.isEmpty = b4
  generalize u.pass1.isEmpty = b5
  generalize u.pass2.isEmpty = b6
  generalize is_email_valid u = b7
  generalize is_pwd_valid u = b8
  generalize is_pwd_match u = b9
  generalize is_user_exists store u = b10
  revert b1 b2 b3 b4 b5 b6 b7 b8 b9 b10
  decide

end RegisterVal

namespace LoginVal

lemma login_validate_eq_nil_iff (email pwd : String) :
    validate email pwd = [] ↔
      (email.isEmpty = false ∧ pwd.isEmpty = false ∧
       is_email_valid email = true) := by
  unfold validate
  generalize email.isEmpty = b1
  generalize pwd.isEmpty = b2
  generalize is_email_valid email = b3
  revert b1 b2 b3
  decide

lemma validate_login_status (email pwd : String) :
    (validate_login email pwd).status = true ↔ validate email pwd = [] := by
  unfold validate_login
  cases h : (validate email pwd).isEmpty <;>
    simp_all [List.isEmpty_iff]

lemma auth_user_of_validate_ne_nil (H : Hasher) (store : List StoredUser)
    (email pwd : String) (h : validate email pwd ≠ []) :
    auth_user H store email pwd = .failure := by
  have hs : (validate_login email pwd).status = false := by
    cases hst : (validate_login email pwd).status
    · rfl
    · exact absurd ((validate_login_status email pwd).1 hst) h
  unfold auth_user
  simp [hs]

lemma auth_user_of_validate_nil (H : Hasher) (store : List StoredUser)
    (email pwd : String) (h : validate email pwd = []) :
    auth_user H store email pwd =
      (match fetch_user store (DBFilter.byEmail email) with
       | none => AuthResult.failure
       | some user =>
           if !(verify_pwd H pwd user.password) then AuthResult.failure
           else AuthResult.success user) := by
  have hs : (validate_login email pwd).status = true :=
    (validate_login_status email pwd).2 h
  unfold auth_user
  simp [hs]

end LoginVal

namespace RegisterVal

lemma validate_reg_status (store : List StoredUser) (u : User) :
    (validate_reg store u).status = true ↔ validate store u = [] := by
  unfold validate_reg
  cases h : (validate store u).isEmpty <;>
    simp_all [List.isEmpty_iff]

lemma save_user_of_validate_ne_nil (H : Hasher) (store : List StoredUser)
    (u : User) (h : validate store u ≠ []) :
    save_user H store u = (⟨false, .errors (validate store u)⟩, store) := by
  have hs : (validate_reg store u).status = false := by
    cases hst : (validate_reg store u).status
    · rfl
    · exact absurd ((validate_reg_status store u).1 hst) h
  unfold save_user
  simp [hs]

lemma save_user_of_validate_nil (H : Hasher) (store : List StoredUser)
    (u : User) (h : validate store u = []) :
    save_user H store u =
      (⟨true, .text "User registered successfully"⟩,
       add_user store (mkRecord H u)) := by
  have hs : (validate_reg store u).status = true :=
    (validate_reg_status store u).2 h
  unfold save_user
  simp [hs]

lemma validateT_eq (store : List StoredUser) (u : User) :
    validateT store u = (validate store u, uniq_queries u) := rfl

lemma validate_regT_eq (store : List StoredUser) (u : User) :
    validate_regT store u = (validate_reg store u, uniq_queries u) := rfl

end RegisterVal

/-! ## Claims -/

/-- C1 (code bug): the spec claims `is_email_valid` accepts every
well-formed email (letters/digits/dot/hyphen/underscore localpart,
alphanumeric-hyphen domain labels, 2+ letter TLD) and rejects every
malformed string.  The source's class `[.-_]` is the character RANGE
`'.'`..`'_'`, which excludes `'-'` and includes `'@'`, and `[A-Z|a-z]`
admits `'|'` in the TLD.  Hence the well-formed `a-b@c.de` is rejected,
while the malformed `a@b@c.de` (second `'@'`) and `a@b.c|` (`'|'` in the
TLD) are accepted.  Emails without those characters behave as claimed
(`user@domain.tld` accepted; missing `'@'` or missing TLD rejected). -/
theorem C1_is_email_valid_divergence :
    LoginVal.is_email_valid "a-b@c.de" = false ∧
    LoginVal.is_email_valid "a@b@c.de" = true ∧
    LoginVal.is_email_valid "a@b.c|" = true ∧
    LoginVal.is_email_valid "user@domain.tld" = true ∧
    LoginVal.is_email_valid "userdomain.tld" = false ∧
    LoginVal.is_email_valid "user@domain" = false ∧
    RegisterVal.is_email_valid
      ⟨"A", "alice", "a-b@c.de", "123", "password1", "password1", "u-1"⟩
      = false := by
  refine ⟨?_, ?_, ?_, ?_, ?_, ?_, ?_⟩ <;> decide

/-- C7: `RegisterVal.validate` runs every check without short-circuiting
and returns exactly the failure messages of the failing checks, in
source order: required fields (name, username, email, phone, pass1,
pass2), then email format, password length, password confirmation
match, and uniqueness. -/
theorem C7_validate_message_order (store : List StoredUser) (u : User) :
    RegisterVal.validate store u =
      ((RegisterVal.reg_checks store u).filter (·.1)).map (·.2) :=
  RegisterVal.validate_eq_checks store u

/-- C8: the password-length check passes exactly when `len(pass1)` is
between 8 and 16 inclusive, and any user whose `pass1` is shorter than 8
or longer than 16 gets the length-failure message from `validate`. -/
theorem C8_pwd_length_bounds (store : List StoredUser) (u : User) :
    (RegisterVal.is_pwd_valid u = true ↔
      (8 ≤ u.pass1.length ∧ u.pass1.length ≤ 16)) ∧
    (u.pass1.length < 8 ∨ 16 < u.pass1.length →
      "Password must be 8-16 characters long" ∈ RegisterVal.validate store u) := by
  constructor
  · simp [RegisterVal.is_pwd_valid]
  · intro h
    rw [RegisterVal.mem_validate_pwd_len]
    simp only [RegisterVal.is_pwd_valid]
    simp only [Bool.and_eq_false_iff, decide_eq_false_iff_not, not_le]
    omega

/-- Witness for C8 at a concrete 5-character password. -/
theorem C8_pwd_length_bounds_witness :
    "Password must be 8-16 characters long" ∈
      RegisterVal.validate [] shortPwdUser :=
  (C8_pwd_length_bounds [] shortPwdUser).2 (Or.inl (by decide))

/-- C9: with an empty email the login validator reports both
"Email is required" and "Invalid Email", because the format check also
runs on the empty string and the regex rejects it. -/
theorem C9_empty_email_two_messages (pwd : String) :
    "Email is required" ∈ LoginVal.validate "" pwd ∧
    "Invalid Email" ∈ LoginVal.validate "" pwd := by
  have h1 : ("" : String).isEmpty = true := rfl
  have h2 : LoginVal.is_email_valid "" = false := by decide
  cases h : pwd.isEmpty <;>
    simp [LoginVal.validate, h1, h2, h]

/-- C3: if any registration check fails — in particular whenever
`pass1 ≠ pass2`, which also puts "Passwords do not match" in the result —
`save_user` returns status `false` with the collected messages, never
calls the store's insert, and leaves the store unchanged. -/
theorem C3_failed_validation_no_insert (H : Hasher) (store : List StoredUser)
    (u : User)
    (h : RegisterVal.validate store u ≠ [] ∨ u.pass1 ≠ u.pass2) :
    (RegisterVal.save_user H store u).1.status = false ∧
    (RegisterVal.save_user H store u).1.msg =
      RegisterVal.RegMsg.errors (RegisterVal.validate store u) ∧
    (RegisterVal.save_user H store u).2 = store ∧
    (u.pass1 ≠ u.pass2 →
      "Passwords do not match" ∈ RegisterVal.validate store u) := by
  have hmem : u.pass1 ≠ u.pass2 →
      "Passwords do not match" ∈ RegisterVal.validate store u := by
    intro hp
    rw [RegisterVal.mem_validate_pwd_match]
    simp [RegisterVal.is_pwd_match, hp]
  have hne : RegisterVal.validate store u ≠ [] := by
    rcases h with h | h
    · exact h
    · exact List.ne_nil_of_mem (hmem h)
  rw [RegisterVal.save_user_of_validate_ne_nil H store u hne]
  exact ⟨rfl, rfl, rfl, hmem⟩

/-- Witness for C3: registering with mismatched passwords on the empty
store fails, reports the mismatch, and leaves the store empty. -/
theorem C3_failed_validation_no_insert_witness :
    (RegisterVal.save_user Hmodel [] mismatchUser).1.status = false ∧
    (RegisterVal.save_user Hmodel [] mismatchUser).1.msg =
      RegisterVal.RegMsg.errors (RegisterVal.validate [] mismatchUser) ∧
    (RegisterVal.save_user Hmodel [] mismatchUser).2 = [] ∧
    (mismatchUser.pass1 ≠ mismatchUser.pass2 →
      "Passwords do not match" ∈ RegisterVal.validate [] mismatchUser) :=
  C3_failed_validation_no_insert Hmodel [] mismatchUser (Or.inr (by decide))

/-- C4: if the store already holds a record matching the candidate's
username, email or identifier, registration fails with a
"User already exists" message and nothing is inserted. -/
theorem C4_duplicate_never_reinserts (H : Hasher) (store : List StoredUser)
    (u : User)
    (h : (fetch_user store (DBFilter.byUsername u.username)).isSome = true ∨
         (fetch_user store (DBFilter.byEmail u.email)).isSome = true ∨
         (fetch_user store (DBFilter.byUUID u.uid)).isSome = true) :
    "User already exists" ∈ RegisterVal.validate store u ∧
    (RegisterVal.save_user H store u).1.status = false ∧
    (RegisterVal.save_user H store u).2 = store := by
  have hex : RegisterVal.is_user_exists store u = false := by
    unfold RegisterVal.is_user_exists
    rcases h with h | h | h <;> simp [h]
  have hmem : "User already exists" ∈ RegisterVal.validate store u :=
    (RegisterVal.mem_validate_exists store u).2 hex
  have hne : RegisterVal.validate store u ≠ [] := List.ne_nil_of_mem hmem
  rw [RegisterVal.save_user_of_validate_ne_nil H store u hne]
  exact ⟨hmem, rfl, rfl⟩

/-- Witness for C4: registering a second "alice" against a store that
already holds one fails and re-inserts nothing. -/
theorem C4_duplicate_never_reinserts_witness :
    "User already exists" ∈ RegisterVal.validate [aliceStored] dupUser ∧
    (RegisterVal.save_user Hmodel [aliceStored] dupUser).1.status = false ∧
    (RegisterVal.save_user Hmodel [aliceStored] dupUser).2 = [aliceStored] :=
  C4_duplicate_never_reinserts Hmodel [aliceStored] dupUser
    (Or.inl (by decide))

/-- C6: `auth_user` fails when the email or password is empty or the
email fails the format check; fails when the store lookup by email finds
no record; fails when the stored hash does not verify against the given
password; and returns the matched record when validation passes, the
lookup hits, and the hash verifies. -/
theorem C6_auth_user_cases (H : Hasher) (store : List StoredUser)
    (email pwd : String) :
    ((email.isEmpty = true ∨ pwd.isEmpty = true ∨
        LoginVal.is_email_valid email = false) →
      LoginVal.auth_user H store email pwd = .failure) ∧
    (fetch_user store (DBFilter.byEmail email) = none →
      LoginVal.auth_user H store email pwd = .failure) ∧
    (∀ r, fetch_user store (DBFilter.byEmail email) = some r →
      LoginVal.verify_pwd H pwd r.password = false →
      LoginVal.auth_user H store email pwd = .failure) ∧
    (∀ r, email.isEmpty = false → pwd.isEmpty = false →
      LoginVal.is_email_valid email = true →
      fetch_user store (DBFilter.byEmail email) = some r →
      LoginVal.verify_pwd H pwd r.password = true →
      LoginVal.auth_user H store email pwd = .success r) := by
  refine ⟨?_, ?_, ?_, ?_⟩
  · intro h
    apply LoginVal.auth_user_of_validate_ne_nil
    rw [ne_eq, LoginVal.login_validate_eq_nil_iff]
    rcases h with h | h | h <;> simp [h]
  · intro hf
    by_cases hv : LoginVal.validate email pwd = []
    · rw [LoginVal.auth_user_of_validate_nil H store email pwd hv, hf]
    · exact LoginVal.auth_user_of_validate_ne_nil H store email pwd hv
  · intro r hf hverify
    by_cases hv : LoginVal.validate email pwd = []
    · rw [LoginVal.auth_user_of_validate_nil H store email pwd hv, hf]
      simp [hverify]
    · exact LoginVal.auth_user_of_validate_ne_nil H store email pwd hv
  · intro r h1 h2 h3 hf hverify
    have hv : LoginVal.validate email pwd = [] :=
      (LoginVal.login_validate_eq_nil_iff email pwd).2 ⟨h1, h2, h3⟩
    rw [LoginVal.auth_user_of_validate_nil H store email pwd hv, hf]
    simp [hverify]

/-- Witness for C6: logging in as the stored "alice" with the correct
password returns her record. -/
theorem C6_auth_user_cases_witness :
    LoginVal.auth_user Hmodel [aliceStored] "a@b.com" "password1" =
      .success aliceStored :=
  (C6_auth_user_cases Hmodel [aliceStored] "a@b.com" "password1").2.2.2
    aliceStored (by decide) (by decide) (by decide) (by decide) (by decide)

/-- C5: after a successful registration the persisted record's password
is the hash of `pass1` (never the plaintext); a subsequent login with
the same email and the correct plaintext password returns that record,
and a login with any other password fails. -/
theorem C5_hash_roundtrip (H : Hasher) (store : List StoredUser) (u : User)
    (h : (RegisterVal.save_user H store u).1.status = true) :
    (RegisterVal.save_user H store u).2 =
      store ++ [RegisterVal.mkRecord H u] ∧
    (RegisterVal.mkRecord H u).password = H.hash u.pass1 ∧
    (RegisterVal.mkRecord H u).password ≠ u.pass1 ∧
    LoginVal.auth_user H (RegisterVal.save_user H store u).2
      u.email u.pass1 = .success (RegisterVal.mkRecord H u) ∧
    (∀ pwd, pwd ≠ u.pass1 →
      LoginVal.auth_user H (RegisterVal.save_user H store u).2
        u.email pwd = .failure) := by
  have hv : RegisterVal.validate store u = [] := by
    by_contra hne
    rw [RegisterVal.save_user_of_validate_ne_nil H store u hne] at h
    simp at h
  obtain ⟨-, -, hemail, -, hpass1, -, hevalid, -, -, hexists⟩ :=
    (RegisterVal.validate_eq_nil_iff store u).1 hv
  have hstore2 : (RegisterVal.save_user H store u).2 =
      store ++ [RegisterVal.mkRecord H u] := by
    rw [RegisterVal.save_user_of_validate_nil H store u hv]; rfl
  have hfetch_old : fetch_user store (DBFilter.byEmail u.email) = none := by
    simp only [RegisterVal.is_user_exists, Bool.not_eq_true',
      Bool.or_eq_false_iff] at hexists
    obtain ⟨⟨-, hb⟩, -⟩ := hexists
    cases hopt : fetch_user store (DBFilter.byEmail u.email) with
    | none => rfl
    | some r => rw [hopt] at hb; simp at hb
  have hfetch_new : fetch_user (store ++ [RegisterVal.mkRecord H u])
      (DBFilter.byEmail u.email) = some (RegisterVal.mkRecord H u) := by
    unfold fetch_user at hfetch_old ⊢
    rw [List.find?_append, hfetch_old]
    simp [matchesFilter, RegisterVal.mkRecord]
  have hlv : LoginVal.validate u.email u.pass1 = [] :=
    (LoginVal.login_validate_eq_nil_iff _ _).2 ⟨hemail, hpass1, hevalid⟩
  have hver : LoginVal.verify_pwd H u.pass1
      (RegisterVal.mkRecord H u).password = true :=
    H.verify_hash_self u.pass1
  have hauth : LoginVal.auth_user H (store ++ [RegisterVal.mkRecord H u])
      u.email u.pass1 = .success (RegisterVal.mkRecord H u) := by
    rw [LoginVal.auth_user_of_validate_nil H _ u.email u.pass1 hlv,
      hfetch_new]
    simp [hver]
  have hwrong : ∀ pwd, pwd ≠ u.pass1 →
      LoginVal.auth_user H (store ++ [RegisterVal.mkRecord H u])
        u.email pwd = .failure := by
    intro pwd hne
    by_cases hlv2 : LoginVal.validate u.email pwd = []
    · rw [LoginVal.auth_user_of_validate_nil H _ u.email pwd hlv2,
        hfetch_new]
      have hver2 : LoginVal.verify_pwd H pwd
          (RegisterVal.mkRecord H u).password = false :=
        H.verify_hash_ne pwd u.pass1 hne
      simp [hver2]
    · exact LoginVal.auth_user_of_validate_ne_nil H _ u.email pwd hlv2
  refine ⟨hstore2, rfl, H.hash_ne_plain u.pass1, ?_, ?_⟩
  · rw [hstore2]; exact hauth
  · intro pwd hne; rw [hstore2]; exact hwrong pwd hne

/-- Witness for C5: registering alice on the empty store persists the
hashed password, the correct password logs in, a wrong one does not. -/
theorem C5_hash_roundtrip_witness :
    (RegisterVal.save_user Hmodel [] aliceUser).2 =
      [] ++ [RegisterVal.mkRecord Hmodel aliceUser] ∧
    (RegisterVal.mkRecord Hmodel aliceUser).password =
      Hmodel.hash aliceUser.pass1 ∧
    (RegisterVal.mkRecord Hmodel aliceUser).password ≠ aliceUser.pass1 ∧
    LoginVal.auth_user Hmodel (RegisterVal.save_user Hmodel [] aliceUser).2
      aliceUser.email aliceUser.pass1 =
      .success (RegisterVal.mkRecord Hmodel aliceUser) ∧
    LoginVal.auth_user Hmodel (RegisterVal.save_user Hmodel [] aliceUser).2
      aliceUser.email "wrongpass" = .failure := by
  obtain ⟨h1, h2, h3, h4, h5⟩ :=
    C5_hash_roundtrip Hmodel [] aliceUser (by decide)
  exact ⟨h1, h2, h3, h4, h5 "wrongpass" (by decide)⟩

/-- C2 counterexample: the claim says BOTH `auth_user` and `save_user`
wrap underlying store/hash failures in `AppException`.  But `save_user`'s
handler is `except Exception as e: raise e` — with a store that raises a
raw error, `save_user` re-raises that raw error, not an `AppException`. -/
theorem C2_counterexample_save_user_raw :
    RegisterVal.save_userE badFetch okHash okInsert aliceUser =
      .error (.raw "db down") ∧
    errorIsWrapped
      (RegisterVal.save_userE badFetch okHash okInsert aliceUser) = false :=
  ⟨rfl, rfl⟩

/-- C2 amended: `auth_user` wraps any failure of its body in
`AppException` (and propagates exactly the body's error inside the
wrapper), while `save_user` re-raises the body's error unchanged. -/
theorem C2_error_propagation
    (fetchE : DBFilter → Except PyError (Option StoredUser))
    (verifyE : String → String → Except PyError Bool)
    (hashE : String → Except PyError String)
    (insertE : StoredUser → Except PyError Unit)
    (email pwd : String) (u : User) :
    errorIsWrapped (LoginVal.auth_userE fetchE verifyE email pwd) = true ∧
    (∀ e, LoginVal.auth_user_body fetchE verifyE email pwd = .error e →
      LoginVal.auth_userE fetchE verifyE email pwd =
        .error (.appException e)) ∧
    (∀ e, RegisterVal.save_userE fetchE hashE insertE u = .error e →
      RegisterVal.save_user_body fetchE hashE insertE u = .error e) := by
  refine ⟨?_, ?_, ?_⟩
  · unfold LoginVal.auth_userE
    cases LoginVal.auth_user_body fetchE verifyE email pwd <;>
      simp [errorIsWrapped]
  · intro e he
    unfold LoginVal.auth_userE
    rw [he]
  · intro e he
    unfold RegisterVal.save_userE at he
    cases hb : RegisterVal.save_user_body fetchE hashE insertE u <;>
      rw [hb] at he <;> simp_all

/-- Witness for C2 amended, at a store that always raises. -/
theorem C2_error_propagation_witness :
    errorIsWrapped
      (LoginVal.auth_userE badFetch okVerify "a@b.com" "pw") = true ∧
    LoginVal.auth_userE badFetch okVerify "a@b.com" "pw" =
      .error (.appException (.raw "db down")) ∧
    RegisterVal.save_user_body badFetch okHash okInsert aliceUser =
      .error (.raw "db down") := by
  obtain ⟨h1, h2, h3⟩ :=
    C2_error_propagation badFetch okVerify okHash okInsert "a@b.com" "pw"
      aliceUser
  exact ⟨h1, h2 (.raw "db down") rfl, h3 (.raw "db down") rfl⟩

/-- C10: on a failing registration, `save_user` runs the validation
sequence twice (once in `validate_reg` for the status, once more to
build the returned messages): each uniqueness query is issued in both
passes, the returned messages come from the second pass, and if the
store is unchanged between the passes they equal the first pass's
messages. -/
theorem C10_validation_runs_twice (H : Hasher) (s1 s2 : List StoredUser)
    (u : User) (h : RegisterVal.validate s1 u ≠ []) :
    (RegisterVal.save_userT H s1 s2 u).2 =
      RegisterVal.uniq_queries u ++ RegisterVal.uniq_queries u ∧
    (RegisterVal.save_userT H s1 s2 u).1.1.msg =
      RegisterVal.RegMsg.errors (RegisterVal.validate s2 u) ∧
    (s1 = s2 →
      (RegisterVal.save_userT H s1 s2 u).1.1.msg =
        RegisterVal.RegMsg.errors (RegisterVal.validate s1 u)) := by
  have hs : (RegisterVal.validate_reg s1 u).status = false := by
    cases hst : (RegisterVal.validate_reg s1 u).status
    · rfl
    · exact absurd ((RegisterVal.validate_reg_status s1 u).1 hst) h
  have hsave : RegisterVal.save_userT H s1 s2 u =
      ((⟨false, .errors (RegisterVal.validate s2 u)⟩, s1),
       RegisterVal.uniq_queries u ++ RegisterVal.uniq_queries u) := by
    unfold RegisterVal.save_userT
    rw [RegisterVal.validate_regT_eq, RegisterVal.validateT_eq]
    simp [hs]
  rw [hsave]
  exact ⟨rfl, rfl, fun hss => by rw [hss]⟩

/-- Witness for C10: a candidate with an empty name fails validation;
with the same (empty) store for both passes, the six uniqueness queries
appear twice and the messages agree across the passes. -/
theorem C10_validation_runs_twice_witness :
    (RegisterVal.save_userT Hmodel [] []
        ⟨"", "alice", "a@b.com", "123", "password1", "password1", "u-1"⟩).2 =
      RegisterVal.uniq_queries
        ⟨"", "alice", "a@b.com", "123", "password1", "password1", "u-1"⟩ ++
      RegisterVal.uniq_queries
        ⟨"", "alice", "a@b.com", "123", "password1", "password1", "u-1"⟩ ∧
    (RegisterVal.save_userT Hmodel [] []
        ⟨"", "alice", "a@b.com", "123", "password1", "password1", "u-1"⟩).1.1.msg =
      RegisterVal.RegMsg.errors (RegisterVal.validate []
        ⟨"", "alice", "a@b.com", "123", "password1", "password1", "u-1"⟩) := by
  obtain ⟨h1, h2, -⟩ :=
    C10_validation_runs_twice Hmodel [] []
      ⟨"", "alice", "a@b.com", "123", "password1", "password1", "u-1"⟩
      (by decide)
  exact ⟨h1, h2⟩
